import Mathlib

set_option maxHeartbeats 1000000

/-!
Verification development for the frame-capture / scroll-choreography /
streaming-encode / post-compression pipeline of the
store-gif-scroll-animation repository. The definitions below are shallow
embeddings of the functions in src/src/helper.js and src/src/main.js;
JavaScript numbers are modelled as rationals, Math.random() as an explicit
random source, and promise rejection as Except.
-/

namespace GifScroll

/-- Design constant config.maxScrolls of scrollDownProcess (helper.js line 88). -/
def maxScrolls : ℕ := 10

/-- Design constant config.waitScrolls of scrollDownProcess (helper.js line 89). -/
def waitScrolls : ℕ := 7

/-- Design constant config.minVariation of scrollDownProcess (helper.js line 90). -/
def minVariation : ℚ := 27

/-- Design constant config.maxVariation of scrollDownProcess (helper.js line 91). -/
def maxVariation : ℚ := 44

/-- The ease-out curve of scrollDownProcess (helper.js line 94). -/
def easeOutCubic (t : ℚ) : ℚ := 1 - (1 - t) ^ 3

/-- The scroll delta of one choreography iteration (helper.js lines 100-103):
`config.scrollTimes > config.maxScrolls && config.scrollTimes % (config.maxScrolls
+ config.waitScrolls) >= config.maxScrolls ? 0 : config.minVariation +
Math.floor(Math.random() * (config.maxVariation - config.minVariation))`.
`r` models the Math.random() draw of this iteration, a rational in [0, 1). -/
def scrollAmount (scrollTimes : ℕ) (r : ℚ) : ℚ :=
  if maxScrolls < scrollTimes ∧ maxScrolls ≤ scrollTimes % (maxScrolls + waitScrolls) then 0
  else minVariation + (⌊r * (maxVariation - minVariation)⌋ : ℚ)

/-- The whole per-iteration scroll decision of scrollDownProcess (helper.js
lines 97-103): the source first computes `progress = config.scrolledUntil /
pageHeight` and `easedProgress = easeOutCubic(progress)`, then computes the
scroll amount. Both derived values are kept here exactly as in the source. -/
def iterationScrollAmount (pageHeight scrolledUntil : ℚ) (scrollTimes : ℕ) (r : ℚ) : ℚ :=
  let progress := scrolledUntil / pageHeight
  let easedProgress := easeOutCubic progress
  scrollAmount scrollTimes r

/-- The mutable loop state of scrollDownProcess: config.scrolledUntil,
elapsedTime and config.scrollTimes (helper.js lines 84-92, 119-121). -/
structure ScrollSt where
  scrolledUntil : ℚ
  elapsedTime : ℚ
  scrollTimes : ℕ
deriving Repr, DecidableEq

/-- scrolledTime as computed by getScrollParameters (helper.js line 72). -/
def scrolledTime (frameRate : ℚ) : ℚ := 1000 / frameRate

/-- Return value of getScrollParameters (helper.js lines 64-74). -/
structure ScrollParameters where
  pageHeight : ℚ
  initialPosition : ℚ
  scrollByAmount : ℤ
  scrolledTime : ℚ

/-- getScrollParameters (helper.js lines 64-74). pageHeight and scrollTop are
the values the page evaluation returns. -/
def getScrollParameters (pageHeight scrollTop viewportHeight scrollPercentage frameRate : ℚ) :
    ScrollParameters :=
  { pageHeight := pageHeight
    initialPosition := viewportHeight + scrollTop
    scrollByAmount := round (viewportHeight * scrollPercentage / 100)
    scrolledTime := 1000 / frameRate }

/-- One iteration of the scrollDownProcess while-loop body (helper.js lines
97-121): compute the delta, add it to scrolledUntil, add 1000/frameRate to
elapsedTime, increment scrollTimes. `rand i` is the Math.random() draw of
iteration `i`. -/
def scrollStep (pageHeight frameRate : ℚ) (rand : ℕ → ℚ) (s : ScrollSt) : ScrollSt :=
  { scrolledUntil := s.scrolledUntil +
      iterationScrollAmount pageHeight s.scrolledUntil s.scrollTimes (rand s.scrollTimes)
    elapsedTime := s.elapsedTime + scrolledTime frameRate
    scrollTimes := s.scrollTimes + 1 }

/-- The while-loop guard of scrollDownProcess (helper.js line 96):
`pageHeight > config.scrolledUntil && gifTime > elapsedTime`. -/
def loopGuard (pageHeight gifTime : ℚ) (s : ScrollSt) : Bool :=
  decide (s.scrolledUntil < pageHeight) && decide (s.elapsedTime < gifTime)

/-- Fuel-indexed semantics of the scrollDownProcess while-loop: run at most
`n` iterations, stopping as soon as the guard fails. -/
def scrollRun (pageHeight gifTime frameRate : ℚ) (rand : ℕ → ℚ) : ℕ → ScrollSt → ScrollSt
  | 0, s => s
  | n + 1, s =>
    if loopGuard pageHeight gifTime s then
      scrollRun pageHeight gifTime frameRate rand n (scrollStep pageHeight frameRate rand s)
    else s

/-- The loop state on entry to scrollDownProcess: scrolledUntil starts at
initialPosition, scrollTimes at 0, elapsedTime at the caller's value. -/
def initScroll (initialPosition elapsedTime : ℚ) : ScrollSt :=
  { scrolledUntil := initialPosition, elapsedTime := elapsedTime, scrollTimes := 0 }

theorem scrollRun_unfold (ph gt fr : ℚ) (rand : ℕ → ℚ) (n : ℕ) (s : ScrollSt) :
    scrollRun ph gt fr rand (n + 1) s =
      if loopGuard ph gt s then scrollRun ph gt fr rand n (scrollStep ph fr rand s) else s := rfl

theorem scrollRun_succ_eq (ph gt fr : ℚ) (rand : ℕ → ℚ) (n : ℕ) (s : ScrollSt) :
    scrollRun ph gt fr rand (n + 1) s =
      if loopGuard ph gt (scrollRun ph gt fr rand n s) then
        scrollStep ph fr rand (scrollRun ph gt fr rand n s)
      else scrollRun ph gt fr rand n s := by
  induction n generalizing s with
  | zero => rfl
  | succ n ih =>
    rw [scrollRun_unfold ph gt fr rand (n + 1) s]
    by_cases hg : loopGuard ph gt s = true
    · rw [if_pos hg]
      have h2 : scrollRun ph gt fr rand (n + 1) s =
          scrollRun ph gt fr rand n (scrollStep ph fr rand s) := by
        rw [scrollRun_unfold, if_pos hg]
      rw [h2]
      exact ih (scrollStep ph fr rand s)
    · rw [if_neg hg]
      have h2 : scrollRun ph gt fr rand (n + 1) s = s := by
        rw [scrollRun_unfold, if_neg hg]
      rw [h2, if_neg hg]

theorem scrollRun_elapsed_of_guard (ph gt fr : ℚ) (rand : ℕ → ℚ) :
    ∀ (n : ℕ) (s : ScrollSt), loopGuard ph gt (scrollRun ph gt fr rand n s) = true →
      (scrollRun ph gt fr rand n s).elapsedTime = s.elapsedTime + n * (1000 / fr) := by
  intro n
  induction n with
  | zero => intro s _; simp [scrollRun]
  | succ n ih =>
    intro s hg
    by_cases hgs : loopGuard ph gt s = true
    · rw [scrollRun_unfold, if_pos hgs] at hg ⊢
      rw [ih _ hg]
      have hstep : (scrollStep ph fr rand s).elapsedTime = s.elapsedTime + scrolledTime fr := rfl
      rw [hstep, scrolledTime]
      push_cast
      ring
    · rw [scrollRun_unfold, if_neg hgs] at hg
      exact absurd hg hgs

/-- C1 counterexample: at iteration index 10 (with random draw 0) the index
modulo the cycle length 17 lies in the paused sub-range (10 % 17 = 10 ≥
maxScrolls), yet the code's delta is 27, not 0, because the extra conjunct
`scrollTimes > maxScrolls` fails at index 10. So the claimed equivalence
"delta = 0 iff index mod 17 falls in the paused sub-range" is false. -/
theorem scrollRhythm_pause_iff_fails_at_ten :
    ¬ (scrollAmount 10 0 = 0 ↔ maxScrolls ≤ 10 % (maxScrolls + waitScrolls)) := by
  have h : scrollAmount 10 0 = 27 := by
    have hc : ¬ (maxScrolls < 10 ∧ maxScrolls ≤ 10 % (maxScrolls + waitScrolls)) := by
      simp [maxScrolls]
    rw [scrollAmount, if_neg hc]
    norm_num [minVariation, maxVariation]
  intro hiff
  have h10 : maxScrolls ≤ 10 % (maxScrolls + waitScrolls) := by
    norm_num [maxScrolls, waitScrolls]
  have := hiff.mpr h10
  rw [h] at this
  norm_num at this

/-- C1 (amended): for every iteration index and every random draw r ∈ [0,1),
the scroll delta is 0 exactly when the index exceeds maxScrolls = 10 AND the
index modulo the cycle length 17 falls in the paused sub-range (so index 10,
though in the paused sub-range mod 17, is still active); every active
iteration's delta lies in [minVariation, maxVariation) = [27, 44). -/
theorem scrollAmount_pause_cycle (t : ℕ) (r : ℚ) (h0 : 0 ≤ r) (h1 : r < 1) :
    (scrollAmount t r = 0 ↔ (maxScrolls < t ∧ maxScrolls ≤ t % (maxScrolls + waitScrolls))) ∧
    (¬ (maxScrolls < t ∧ maxScrolls ≤ t % (maxScrolls + waitScrolls)) →
      minVariation ≤ scrollAmount t r ∧ scrollAmount t r < maxVariation) := by
  have hmm : maxVariation - minVariation = (17 : ℚ) := by
    norm_num [maxVariation, minVariation]
  have hfl0 : (0 : ℤ) ≤ ⌊r * (17 : ℚ)⌋ := Int.floor_nonneg.mpr (by positivity)
  have hfllt : ⌊r * (17 : ℚ)⌋ < 17 := by
    apply Int.floor_lt.mpr
    push_cast
    nlinarith
  have hfl16 : ⌊r * (17 : ℚ)⌋ ≤ 16 := by omega
  have hq0 : (0 : ℚ) ≤ ((⌊r * (17 : ℚ)⌋ : ℤ) : ℚ) := by exact_mod_cast hfl0
  have hq16 : ((⌊r * (17 : ℚ)⌋ : ℤ) : ℚ) ≤ 16 := by exact_mod_cast hfl16
  by_cases hc : maxScrolls < t ∧ maxScrolls ≤ t % (maxScrolls + waitScrolls)
  · refine ⟨?_, fun h => absurd hc h⟩
    rw [scrollAmount, if_pos hc]
    simp [hc]
  · have hval : scrollAmount t r = minVariation + ((⌊r * (17 : ℚ)⌋ : ℤ) : ℚ) := by
      rw [scrollAmount, if_neg hc, hmm]
    constructor
    · constructor
      · intro hzero
        rw [hval, minVariation] at hzero
        linarith
      · intro h; exact absurd h hc
    · intro _
      rw [hval]
      norm_num [minVariation, maxVariation]
      constructor <;> linarith

/-- C1 witness: the amended rhythm statement evaluated at index 0 with random
draw 1/2 (an active iteration whose delta is 35 ∈ [27, 44)). -/
theorem scrollAmount_pause_cycle_witness :
    (scrollAmount 0 (1/2) = 0 ↔ (maxScrolls < 0 ∧ maxScrolls ≤ 0 % (maxScrolls + waitScrolls))) ∧
    (¬ (maxScrolls < 0 ∧ maxScrolls ≤ 0 % (maxScrolls + waitScrolls)) →
      minVariation ≤ scrollAmount 0 (1/2) ∧ scrollAmount 0 (1/2) < maxVariation) :=
  scrollAmount_pause_cycle 0 (1/2) (by norm_num) (by norm_num)

/-- C2: for any pageHeight > initialPosition, any gifTime budget and any
frameRate > 0, the scrollDownProcess loop terminates: some finite fuel n is
enough (running one more iteration changes nothing), and at exit
scrolledUntil ≥ pageHeight or elapsedTime ≥ gifTime holds (never neither),
for every behaviour of the random source. -/
theorem scrollDownProcess_terminates (pageHeight initialPosition gifTime frameRate
    elapsedTime0 : ℚ) (rand : ℕ → ℚ) (hfr : 0 < frameRate)
    (hpg : initialPosition < pageHeight) :
    ∃ n : ℕ,
      (pageHeight ≤ (scrollRun pageHeight gifTime frameRate rand n
          (initScroll initialPosition elapsedTime0)).scrolledUntil ∨
        gifTime ≤ (scrollRun pageHeight gifTime frameRate rand n
          (initScroll initialPosition elapsedTime0)).elapsedTime) ∧
      scrollRun pageHeight gifTime frameRate rand (n + 1)
          (initScroll initialPosition elapsedTime0) =
        scrollRun pageHeight gifTime frameRate rand n
          (initScroll initialPosition elapsedTime0) := by
  set s0 := initScroll initialPosition elapsedTime0 with hs0
  set N := (⌈(gifTime - elapsedTime0) * frameRate / 1000⌉).toNat with hN
  have hguard : loopGuard pageHeight gifTime (scrollRun pageHeight gifTime frameRate rand N s0)
      = false := by
    cases hb : loopGuard pageHeight gifTime (scrollRun pageHeight gifTime frameRate rand N s0) with
    | false => rfl
    | true =>
      exfalso
      have helapsed := scrollRun_elapsed_of_guard pageHeight gifTime frameRate rand N s0 hb
      have hlt : (scrollRun pageHeight gifTime frameRate rand N s0).elapsedTime < gifTime := by
        have hb' := hb
        simp only [loopGuard, Bool.and_eq_true, decide_eq_true_eq] at hb'
        exact hb'.2
      rw [helapsed] at hlt
      have hs0e : s0.elapsedTime = elapsedTime0 := rfl
      rw [hs0e] at hlt
      have hle : ((gifTime - elapsedTime0) * frameRate / 1000 : ℚ) ≤ (N : ℚ) := by
        refine le_trans (Int.le_ceil _) ?_
        exact_mod_cast Int.self_le_toNat _
      have hpos : (0 : ℚ) < 1000 / frameRate := by positivity
      have hfr' : frameRate ≠ 0 := ne_of_gt hfr
      have hmul : ((gifTime - elapsedTime0) * frameRate / 1000) * (1000 / frameRate)
          = gifTime - elapsedTime0 := by
        field_simp
      have hA : gifTime - elapsedTime0 ≤ (N : ℚ) * (1000 / frameRate) := by
        rw [← hmul]
        exact mul_le_mul_of_nonneg_right hle (le_of_lt hpos)
      linarith
  refine ⟨N, ?_, ?_⟩
  · have hg := hguard
    simp only [loopGuard, Bool.and_eq_false_iff, decide_eq_false_iff_not, not_lt] at hg
    exact hg
  · rw [scrollRun_succ_eq]
    simp [hguard]

/-- C2 witness: the termination statement at pageHeight = 3000,
initialPosition = 768, gifTime = 5000, frameRate = 10, elapsedTime 0,
with the random source constantly 0. -/
theorem scrollDownProcess_terminates_witness :
    ∃ n : ℕ,
      ((3000 : ℚ) ≤ (scrollRun 3000 5000 10 (fun _ => 0) n
          (initScroll 768 0)).scrolledUntil ∨
        (5000 : ℚ) ≤ (scrollRun 3000 5000 10 (fun _ => 0) n
          (initScroll 768 0)).elapsedTime) ∧
      scrollRun 3000 5000 10 (fun _ => 0) (n + 1) (initScroll 768 0) =
        scrollRun 3000 5000 10 (fun _ => 0) n (initScroll 768 0) :=
  scrollDownProcess_terminates 3000 768 5000 10 0 (fun _ => 0) (by norm_num) (by norm_num)

/-- C4: the eased progress value is dead code. scrollDownProcess computes
`progress = scrolledUntil / pageHeight` and `easedProgress =
easeOutCubic(progress)` each iteration, but the per-iteration scroll decision
is identical for ANY two iterations that agree on the iteration index and the
random draw, whatever their progress fractions are: the eased value is never
applied to the delta or the pause cadence. -/
theorem easedProgress_unused (ph su ph' su' : ℚ) (t : ℕ) (r : ℚ) :
    iterationScrollAmount ph su t r = iterationScrollAmount ph' su' t r := rfl

/-- C7: getScrollParameters fixes scrolledTime = 1000 / frameRate, and after
any k completed choreography iterations the elapsed time is exactly
elapsedTime0 + k * (1000 / frameRate), independent of whether the iterations
scrolled or paused (it holds for every random source). -/
theorem elapsedTime_exact_after_k (pageHeight scrollTop viewportHeight scrollPercentage
    frameRate elapsedTime0 initialPosition : ℚ) (rand : ℕ → ℚ) (k : ℕ) :
    (getScrollParameters pageHeight scrollTop viewportHeight scrollPercentage
        frameRate).scrolledTime = 1000 / frameRate ∧
    ((scrollStep pageHeight frameRate rand)^[k]
        (initScroll initialPosition elapsedTime0)).elapsedTime
      = elapsedTime0 + k * (1000 / frameRate) := by
  refine ⟨rfl, ?_⟩
  induction k with
  | zero => simp [initScroll]
  | succ n ih =>
    rw [Function.iterate_succ_apply']
    have hstep : ∀ x : ScrollSt, (scrollStep pageHeight frameRate rand x).elapsedTime
        = x.elapsedTime + scrolledTime frameRate := fun x => rfl
    rw [hstep, ih, scrolledTime]
    push_cast
    ring

/-- Events of the record loop (helper.js lines 50-62): one screenshot capture
and one gif-append per loop index. -/
inductive FrameEvent where
  | capture (i : ℕ)
  | append (i : ℕ)
deriving Repr, DecidableEq

/-- Trace of the record for-loop body over indices 0..frames-1: iteration i
first captures frame i, then appends frame i, strictly in that order. -/
def recordTrace (frames : ℕ) : List FrameEvent :=
  (List.range frames).bind fun i => [FrameEvent.capture i, FrameEvent.append i]

/-- `const frames = Math.floor((recordingTime / 1000) * frameRate)` together
with the loop bound `i < frames` (helper.js lines 51-53): the number of loop
iterations, as a natural number. -/
def recordFrames (recordingTime frameRate : ℚ) : ℕ :=
  (⌊recordingTime / 1000 * frameRate⌋).toNat

/-- The record function (helper.js lines 50-62) as the trace of capture and
append events it performs on the happy path. -/
def record (recordingTime frameRate : ℚ) : List FrameEvent :=
  recordTrace (recordFrames recordingTime frameRate)

/-- Number of frames appended to the encoder session in a trace. -/
def appendCount (tr : List FrameEvent) : ℕ :=
  tr.countP fun e => match e with
    | FrameEvent.append _ => true
    | _ => false

theorem recordTrace_succ (n : ℕ) :
    recordTrace (n + 1) = recordTrace n ++ [FrameEvent.capture n, FrameEvent.append n] := by
  simp [recordTrace, List.range_succ]

theorem recordTrace_length (n : ℕ) : (recordTrace n).length = 2 * n := by
  induction n with
  | zero => rfl
  | succ n ih =>
    rw [recordTrace_succ]
    simp [ih]
    omega

theorem appendCount_recordTrace (n : ℕ) : appendCount (recordTrace n) = n := by
  induction n with
  | zero => rfl
  | succ n ih =>
    rw [appendCount, recordTrace_succ, List.countP_append]
    rw [appendCount] at ih
    rw [ih]
    rfl

theorem recordTrace_get (n : ℕ) : ∀ i, i < n →
    (recordTrace n).get? (2 * i) = some (FrameEvent.capture i) ∧
    (recordTrace n).get? (2 * i + 1) = some (FrameEvent.append i) := by
  induction n with
  | zero => intro i hi; omega
  | succ n ih =>
    intro i hi
    rw [recordTrace_succ]
    by_cases hlt : i < n
    · have h1 : 2 * i < (recordTrace n).length := by rw [recordTrace_length]; omega
      have h2 : 2 * i + 1 < (recordTrace n).length := by rw [recordTrace_length]; omega
      rw [List.get?_append h1, List.get?_append h2]
      exact ih i hlt
    · have hin : i = n := by omega
      subst hin
      have h1 : (recordTrace i).length ≤ 2 * i := by rw [recordTrace_length]
      have h2 : (recordTrace i).length ≤ 2 * i + 1 := by rw [recordTrace_length]; omega
      rw [List.get?_append_right h1, List.get?_append_right h2, recordTrace_length]
      constructor
      · simp
      · have : 2 * i + 1 - 2 * i = 1 := by omega
        rw [this]
        rfl

/-- C5: for every duration and frameRate > 0 the record loop appends exactly
floor(durationMs / 1000 * frameRate) frames to the encoder session; when that
floor is 0 it performs nothing; and the trace is strictly sequential: event
2i is the capture of frame i and event 2i+1 its append, so frame i+1's
capture happens only after frame i has been appended. -/
theorem record_appends_floor_frames (durationMs frameRate : ℚ) (hfr : 0 < frameRate)
    (hd : 0 ≤ durationMs) :
    ((appendCount (record durationMs frameRate) : ℤ) = ⌊durationMs / 1000 * frameRate⌋) ∧
    (⌊durationMs / 1000 * frameRate⌋ = 0 → record durationMs frameRate = []) ∧
    (∀ i, i < recordFrames durationMs frameRate →
      (record durationMs frameRate).get? (2 * i) = some (FrameEvent.capture i) ∧
      (record durationMs frameRate).get? (2 * i + 1) = some (FrameEvent.append i)) := by
  have hpos : (0 : ℚ) ≤ durationMs / 1000 * frameRate := by positivity
  have hfl : (0 : ℤ) ≤ ⌊durationMs / 1000 * frameRate⌋ := Int.floor_nonneg.mpr hpos
  refine ⟨?_, ?_, ?_⟩
  · rw [record, appendCount_recordTrace, recordFrames]
    exact Int.toNat_of_nonneg hfl
  · intro h0
    rw [record, recordFrames, h0]
    rfl
  · intro i hi
    rw [record]
    exact recordTrace_get _ i hi

/-- C5 witness: recording 1000 ms at 10 fps appends exactly 10 frames,
capture and append strictly interleaved. -/
theorem record_appends_floor_frames_witness :
    ((appendCount (record 1000 10) : ℤ) = ⌊(1000 : ℚ) / 1000 * 10⌋) ∧
    (⌊(1000 : ℚ) / 1000 * 10⌋ = 0 → record 1000 10 = []) ∧
    (∀ i, i < recordFrames 1000 10 →
      (record 1000 10).get? (2 * i) = some (FrameEvent.capture i) ∧
      (record 1000 10).get? (2 * i + 1) = some (FrameEvent.append i)) :=
  record_appends_floor_frames 1000 10 (by norm_num) (by norm_num)

/-- `gif.on('data', (chunk) => chunks.push(chunk))` (main.js line 147): the
chunks array after all emitted chunks have been pushed, in emission order. -/
def pushChunks (emitted : List (List ℕ)) : List (List ℕ) :=
  emitted.foldl (fun chunks c => chunks ++ [c]) []

/-- `Buffer.concat(chunks)` as used by getGifBuffer (helper.js line 131). -/
def bufferConcat (chunks : List (List ℕ)) : List ℕ :=
  chunks.foldl (fun acc c => acc ++ c) []

/-- getGifBuffer (helper.js lines 129-134): on the encoder's end event it
resolves to Buffer.concat of the accumulated chunks. -/
def getGifBuffer (emitted : List (List ℕ)) : List ℕ :=
  bufferConcat (pushChunks emitted)

theorem foldl_push_eq (l : List (List ℕ)) : ∀ acc,
    l.foldl (fun chunks c => chunks ++ [c]) acc = acc ++ l := by
  induction l with
  | nil => intro acc; simp
  | cons c l ih => intro acc; simp [ih]

theorem foldl_append_join (l : List (List ℕ)) : ∀ acc : List ℕ,
    l.foldl (fun acc c => acc ++ c) acc = acc ++ l.join := by
  induction l with
  | nil => intro acc; simp
  | cons c l ih => intro acc; simp [ih]

/-- C9: for every sequence of chunks the encoder emits, getGifBuffer returns
exactly their concatenation in emission order, so its length is the sum of
the chunk lengths: no chunk is reordered or dropped. -/
theorem getGifBuffer_concat_in_order (emitted : List (List ℕ)) :
    getGifBuffer emitted = emitted.join ∧
    (getGifBuffer emitted).length = (emitted.map List.length).sum := by
  have h1 : pushChunks emitted = emitted := by
    rw [pushChunks, foldl_push_eq]
    simp
  have h2 : bufferConcat emitted = emitted.join := by
    rw [bufferConcat, foldl_append_join]
    simp
  have h : getGifBuffer emitted = emitted.join := by rw [getGifBuffer, h1, h2]
  exact ⟨h, by rw [h]; exact List.length_join _⟩

/-- One imagemin plugin configuration as selectPlugin builds it. -/
structure PluginCfg where
  backend : String
  lossy : Option ℕ
  optimizationLevel : ℕ
deriving Repr, DecidableEq

/-- `imageminGiflossy({ lossy: 130, optimizationLevel: 3 })` (helper.js line 138). -/
def ultralossyPlugins : List PluginCfg :=
  [{ backend := "giflossy", lossy := some 130, optimizationLevel := 3 }]

/-- `imageminGiflossy({ lossy: 80, optimizationLevel: 3 })` (helper.js line 139). -/
def lossyPlugins : List PluginCfg :=
  [{ backend := "giflossy", lossy := some 80, optimizationLevel := 3 }]

/-- `imageminGifsicle({ optimizationLevel: 3 })` (helper.js line 140). -/
def loslessPlugins : List PluginCfg :=
  [{ backend := "gifsicle", lossy := none, optimizationLevel := 3 }]

/-- The `plugins[compressionType]` object lookup of selectPlugin (helper.js
lines 137-141): none when the key is not a property of the object. The
argument is an Option so the JavaScript `undefined` argument is covered. -/
def pluginsTable (compressionType : Option String) : Option (List PluginCfg) :=
  if compressionType = some "ultralossy" then some ultralossyPlugins
  else if compressionType = some "lossy" then some lossyPlugins
  else if compressionType = some "losless" then some loslessPlugins
  else none

/-- selectPlugin (helper.js lines 136-143): `plugins[compressionType] ||
plugins.lossy`. -/
def selectPlugin (compressionType : Option String) : List PluginCfg :=
  (pluginsTable compressionType).getD lossyPlugins

/-- C10: every compression-type value other than the three recognized keys
(including undefined) silently selects the lossy plugin, giflossy with
lossy = 80, instead of failing. -/
theorem selectPlugin_unknown_falls_back_lossy (compressionType : Option String)
    (h : compressionType ≠ some "ultralossy" ∧ compressionType ≠ some "lossy" ∧
      compressionType ≠ some "losless") :
    selectPlugin compressionType = lossyPlugins ∧
    lossyPlugins = [{ backend := "giflossy", lossy := some 80, optimizationLevel := 3 }] := by
  refine ⟨?_, rfl⟩
  rw [selectPlugin, pluginsTable, if_neg h.1, if_neg h.2.1, if_neg h.2.2]
  rfl

/-- C10 witness: the correctly spelled profile name "lossless" is NOT one of
the recognized keys (the code spells its key "losless"), so it silently gets
lossy compression. -/
theorem selectPlugin_unknown_falls_back_lossy_witness :
    selectPlugin (some "lossless") = lossyPlugins ∧
    lossyPlugins = [{ backend := "giflossy", lossy := some 80, optimizationLevel := 3 }] :=
  selectPlugin_unknown_falls_back_lossy (some "lossless") (by decide)

/-- exceptOk e is true exactly when e carries a success value. -/
def exceptOk {α : Type} : Except String α → Bool
  | Except.ok _ => true
  | Except.error _ => false

/-- Exponential backoff before the next compression attempt (helper.js line
164): `Math.pow(2, attempt) * 1000` milliseconds. -/
def backoffMs (attempt : ℕ) : ℕ := 2 ^ attempt * 1000

/-- Result of one compressGif call: the returned buffer or the thrown error,
together with the backoff sleeps performed along the way. -/
structure CompressRun where
  result : Except String (List ℕ)
  sleeps : List ℕ
deriving Repr

/-- The try-block of one compressGif attempt (helper.js lines 149-158):
`attemptResult i` models what `imagemin.buffer` does on attempt i (none =
it throws). An imagemin result that is missing or empty is turned into a
throw by the explicit length check, so the outcome is `some buf` exactly
when the attempt returns normally, with buf non-empty. -/
def attemptOutcome (attemptResult : ℕ → Option (List ℕ)) (attempt : ℕ) : Option (List ℕ) :=
  match attemptResult attempt with
  | some buf => if buf.length = 0 then none else some buf
  | none => none

/-- The retry for-loop of compressGif (helper.js lines 148-166); fuel is the
number of attempts still allowed, maxRetries - attempt + 1 at entry. On a
failed attempt the loop rethrows when attempt = maxRetries and otherwise
sleeps 2^attempt * 1000 ms and retries. -/
def compressLoop (attemptResult : ℕ → Option (List ℕ)) (maxRetries : ℕ) :
    ℕ → ℕ → CompressRun
  | _, 0 => { result := Except.error "compression loop exited", sleeps := [] }
  | attempt, fuel + 1 =>
    match attemptOutcome attemptResult attempt with
    | some buf => { result := Except.ok buf, sleeps := [] }
    | none =>
      if attempt = maxRetries then
        { result := Except.error "Gif compression failed after 3 attempts", sleeps := [] }
      else
        { result := (compressLoop attemptResult maxRetries (attempt + 1) fuel).result
          sleeps := backoffMs attempt ::
            (compressLoop attemptResult maxRetries (attempt + 1) fuel).sleeps }

/-- compressGif with its default maxRetries = 3 (helper.js line 145); the
attempt counter starts at 1. -/
def compressGif (attemptResult : ℕ → Option (List ℕ)) : CompressRun :=
  compressLoop attemptResult 3 1 3

/-- True when compression attempt i of this run fails (throws or yields an
empty buffer). -/
def attemptFails (attemptResult : ℕ → Option (List ℕ)) (i : ℕ) : Bool :=
  (attemptOutcome attemptResult i).isNone

/-- True unless the value is a success carrying an empty buffer. -/
def okNonEmpty : Except String (List ℕ) → Bool
  | Except.ok b => decide (b.length ≠ 0)
  | Except.error _ => true

theorem compressLoop_unfold1 (f : ℕ → Option (List ℕ)) :
    compressGif f =
      match attemptOutcome f 1 with
      | some buf => { result := Except.ok buf, sleeps := [] }
      | none =>
        { result := (compressLoop f 3 2 2).result
          sleeps := backoffMs 1 :: (compressLoop f 3 2 2).sleeps } := rfl

theorem compressLoop_unfold2 (f : ℕ → Option (List ℕ)) :
    compressLoop f 3 2 2 =
      match attemptOutcome f 2 with
      | some buf => { result := Except.ok buf, sleeps := [] }
      | none =>
        { result := (compressLoop f 3 3 1).result
          sleeps := backoffMs 2 :: (compressLoop f 3 3 1).sleeps } := rfl

theorem compressLoop_unfold3 (f : ℕ → Option (List ℕ)) :
    compressLoop f 3 3 1 =
      match attemptOutcome f 3 with
      | some buf => { result := Except.ok buf, sleeps := [] }
      | none =>
        { result := Except.error "Gif compression failed after 3 attempts", sleeps := [] } :=
  rfl

theorem attemptOutcome_ne_empty (f : ℕ → Option (List ℕ)) (i : ℕ) (b : List ℕ)
    (h : attemptOutcome f i = some b) : b.length ≠ 0 := by
  cases hf : f i with
  | none => simp [attemptOutcome, hf] at h
  | some buf =>
    simp only [attemptOutcome, hf] at h
    by_cases hl : buf.length = 0
    · rw [if_pos hl] at h; exact absurd h (by simp)
    · rw [if_neg hl] at h
      have hb := Option.some.inj h
      rw [← hb]
      exact hl

/-- C6: for every behaviour of the underlying transcoder, compressGif
succeeds iff one of its (at most) 3 attempts returns a non-empty buffer:
an empty result is a failure, a success is always a non-empty buffer, the
error is raised exactly when all 3 attempts failed (never before), and the
backoff sleeps are exponential - 2^1*1000 = 2000 ms after a first failed
attempt and 2^2*1000 = 4000 ms after a second, none after the third. -/
theorem compressGif_retry_contract (f : ℕ → Option (List ℕ)) :
    (exceptOk (compressGif f).result
      = (!attemptFails f 1 || !attemptFails f 2 || !attemptFails f 3)) ∧
    okNonEmpty (compressGif f).result = true ∧
    ((compressGif f).sleeps =
      if attemptFails f 1 then
        backoffMs 1 :: (if attemptFails f 2 then [backoffMs 2] else [])
      else []) ∧
    backoffMs 1 = 2000 ∧ backoffMs 2 = 4000 := by
  rcases h1 : attemptOutcome f 1 with _ | b1
  · rcases h2 : attemptOutcome f 2 with _ | b2
    · rcases h3 : attemptOutcome f 3 with _ | b3
      · have hg : compressGif f =
            { result := Except.error "Gif compression failed after 3 attempts",
              sleeps := [backoffMs 1, backoffMs 2] } := by
          rw [compressLoop_unfold1, h1, compressLoop_unfold2, h2, compressLoop_unfold3, h3]
        rw [hg]
        refine ⟨?_, rfl, ?_, by norm_num [backoffMs], by norm_num [backoffMs]⟩
        · simp [exceptOk, attemptFails, h1, h2, h3]
        · simp [attemptFails, h1, h2]
      · have hg : compressGif f =
            { result := Except.ok b3, sleeps := [backoffMs 1, backoffMs 2] } := by
          rw [compressLoop_unfold1, h1, compressLoop_unfold2, h2, compressLoop_unfold3, h3]
        rw [hg]
        refine ⟨?_, ?_, ?_, by norm_num [backoffMs], by norm_num [backoffMs]⟩
        · simp [exceptOk, attemptFails, h1, h2, h3]
        · simp [okNonEmpty, attemptOutcome_ne_empty f 3 b3 h3]
        · simp [attemptFails, h1, h2]
    · have hg : compressGif f = { result := Except.ok b2, sleeps := [backoffMs 1] } := by
        rw [compressLoop_unfold1, h1, compressLoop_unfold2, h2]
      rw [hg]
      refine ⟨?_, ?_, ?_, by norm_num [backoffMs], by norm_num [backoffMs]⟩
      · simp [exceptOk, attemptFails, h1, h2]
      · simp [okNonEmpty, attemptOutcome_ne_empty f 2 b2 h2]
      · simp [attemptFails, h1, h2]
  · have hg : compressGif f = { result := Except.ok b1, sleeps := [] } := by
      rw [compressLoop_unfold1, h1]
    rw [hg]
    refine ⟨?_, ?_, ?_, by norm_num [backoffMs], by norm_num [backoffMs]⟩
    · simp [exceptOk, attemptFails, h1]
    · simp [okNonEmpty, attemptOutcome_ne_empty f 1 b1 h1]
    · simp [attemptFails, h1]

/-- Behaviour of one pngjs parse call (helper.js lines 19-37): either the
parser never invokes its callback, or it invokes it at time tMs with an
error value and a data value. -/
inductive ParseOutcome where
  | never
  | callback (tMs : ℕ) (error : Option String) (data : Option (List ℕ))
deriving Repr, DecidableEq

/-- The decode time budget of parsePngBuffer (helper.js lines 22-24): 30000 ms. -/
def parseTimeoutMs : ℕ := 30000

/-- parsePngBuffer (helper.js lines 19-37): the 30 s timer rejects when the
callback never comes or comes too late; otherwise the callback rejects with
its error if there is one, resolves with its data if there is some, and
rejects with the no-data error when both are missing. -/
def parsePngBuffer : ParseOutcome → Except String (List ℕ)
  | ParseOutcome.never => Except.error "PNG parsing timeout"
  | ParseOutcome.callback tMs e d =>
    if parseTimeoutMs ≤ tMs then Except.error "PNG parsing timeout"
    else
      match e, d with
      | some err, _ => Except.error err
      | none, some png => Except.ok png
      | none, none => Except.error "No data returned from PNG parser"

/-- gifAddFrame (helper.js lines 39-48): parse the screenshot buffer and
append the decoded pixels to the gif; the catch logs and rethrows, so a
decode error propagates unchanged to the caller. `frames` is the list of
frames already appended to the encoder session. -/
def gifAddFrame (o : ParseOutcome) (frames : List (List ℕ)) : Except String (List (List ℕ)) :=
  match parsePngBuffer o with
  | Except.ok png => Except.ok (frames ++ [png])
  | Except.error e => Except.error e

/-- The frame loop of record (helper.js lines 53-61) with its decode
outcomes made explicit: run `remaining` more iterations starting at index i,
rethrowing the first failure (which aborts the whole recording). -/
def recordExcept (outcomes : ℕ → ParseOutcome) :
    ℕ → ℕ → List (List ℕ) → Except String (List (List ℕ))
  | _, 0, frames => Except.ok frames
  | i, remaining + 1, frames =>
    match gifAddFrame (outcomes i) frames with
    | Except.ok updated => recordExcept outcomes (i + 1) remaining updated
    | Except.error e => Except.error e

/-- A whole n-frame recording starting with no appended frames. -/
def recordRun (outcomes : ℕ → ParseOutcome) (n : ℕ) : Except String (List (List ℕ)) :=
  recordExcept outcomes 0 n []

theorem parsePng_callback (t : ℕ) (e : Option String) (d : Option (List ℕ)) :
    parsePngBuffer (ParseOutcome.callback t e d) =
      if parseTimeoutMs ≤ t then Except.error "PNG parsing timeout"
      else
        match e, d with
        | some err, _ => Except.error err
        | none, some png => Except.ok png
        | none, none => Except.error "No data returned from PNG parser" := rfl

theorem gifAddFrame_ok (o : ParseOutcome) (frames : List (List ℕ)) (png : List ℕ)
    (h : parsePngBuffer o = Except.ok png) :
    gifAddFrame o frames = Except.ok (frames ++ [png]) := by
  rw [gifAddFrame, h]

theorem gifAddFrame_err (o : ParseOutcome) (frames : List (List ℕ)) (e : String)
    (h : parsePngBuffer o = Except.error e) :
    gifAddFrame o frames = Except.error e := by
  rw [gifAddFrame, h]

theorem recordExcept_step_ok (outcomes : ℕ → ParseOutcome) (i m : ℕ)
    (frames updated : List (List ℕ))
    (h : gifAddFrame (outcomes i) frames = Except.ok updated) :
    recordExcept outcomes i (m + 1) frames = recordExcept outcomes (i + 1) m updated := by
  have hu : recordExcept outcomes i (m + 1) frames =
      match gifAddFrame (outcomes i) frames with
      | Except.ok updated => recordExcept outcomes (i + 1) m updated
      | Except.error e => Except.error e := rfl
  rw [hu, h]

theorem recordExcept_step_err (outcomes : ℕ → ParseOutcome) (i m : ℕ)
    (frames : List (List ℕ)) (e : String)
    (h : gifAddFrame (outcomes i) frames = Except.error e) :
    recordExcept outcomes i (m + 1) frames = Except.error e := by
  have hu : recordExcept outcomes i (m + 1) frames =
      match gifAddFrame (outcomes i) frames with
      | Except.ok updated => recordExcept outcomes (i + 1) m updated
      | Except.error e => Except.error e := rfl
  rw [hu, h]

theorem recordExcept_ok_iff (outcomes : ℕ → ParseOutcome) :
    ∀ (remaining i : ℕ) (frames : List (List ℕ)),
      exceptOk (recordExcept outcomes i remaining frames) = true ↔
        ∀ j, j < remaining → exceptOk (parsePngBuffer (outcomes (i + j))) = true := by
  intro remaining
  induction remaining with
  | zero =>
    intro i frames
    simp [recordExcept, exceptOk]
  | succ m ih =>
    intro i frames
    cases hp : parsePngBuffer (outcomes i) with
    | ok png =>
      rw [recordExcept_step_ok outcomes i m frames (frames ++ [png])
        (gifAddFrame_ok (outcomes i) frames png hp)]
      rw [ih (i + 1) (frames ++ [png])]
      constructor
      · intro hall j hj
        cases j with
        | zero =>
          rw [Nat.add_zero, hp]
          rfl
        | succ j' =>
          have hthis := hall j' (by omega)
          rw [show i + (j' + 1) = i + 1 + j' from by omega]
          exact hthis
      · intro hall j hj
        have hthis := hall (j + 1) (by omega)
        rw [show i + 1 + j = i + (j + 1) from by omega]
        exact hthis
    | error e =>
      rw [recordExcept_step_err outcomes i m frames e
        (gifAddFrame_err (outcomes i) frames e hp)]
      constructor
      · intro hfalse
        exact absurd hfalse (by simp [exceptOk])
      · intro hall
        exfalso
        have hthis := hall 0 (by omega)
        rw [Nat.add_zero, hp] at hthis
        exact absurd hthis (by simp [exceptOk])

/-- C8: parsePngBuffer succeeds exactly on a well-formed decode (a callback
carrying data and no error) delivered within the 30000 ms budget - every
malformed buffer, parser error or budget overrun yields an error; that error
passes through gifAddFrame unchanged (the frame-append step succeeds exactly
when the decode does); and a recording in which some frame's decode fails is
itself an error - the whole recording aborts instead of silently skipping
the frame. -/
theorem decode_failure_propagates (o : ParseOutcome) (frames : List (List ℕ))
    (outcomes : ℕ → ParseOutcome) (n j : ℕ) (hj : j < n)
    (hfail : exceptOk (parsePngBuffer (outcomes j)) = false) :
    (exceptOk (parsePngBuffer o) = true ↔
      ∃ tMs png, o = ParseOutcome.callback tMs none (some png) ∧ tMs < parseTimeoutMs) ∧
    exceptOk (gifAddFrame o frames) = exceptOk (parsePngBuffer o) ∧
    exceptOk (recordRun outcomes n) = false := by
  refine ⟨?_, ?_, ?_⟩
  · cases o with
    | never =>
      constructor
      · intro h
        exact absurd h (by simp [parsePngBuffer, exceptOk])
      · rintro ⟨t, png, heq, -⟩
        exact ParseOutcome.noConfusion heq
    | callback t e d =>
      constructor
      · intro h
        by_cases ht : parseTimeoutMs ≤ t
        · rw [parsePng_callback, if_pos ht] at h
          exact absurd h (by simp [exceptOk])
        · rw [parsePng_callback, if_neg ht] at h
          cases e with
          | some err => exact absurd h (by simp [exceptOk])
          | none =>
            cases d with
            | some png => exact ⟨t, png, rfl, by omega⟩
            | none => exact absurd h (by simp [exceptOk])
      · rintro ⟨t', png, heq, hlt⟩
        injection heq with h1 h2 h3
        subst h1
        subst h2
        subst h3
        rw [parsePng_callback, if_neg (by omega)]
        rfl
  · cases hp : parsePngBuffer o with
    | ok png =>
      rw [gifAddFrame_ok o frames png hp]
      rfl
    | error e =>
      rw [gifAddFrame_err o frames e hp]
      rfl
  · rw [recordRun]
    cases hrec : exceptOk (recordExcept outcomes 0 n []) with
    | false => rfl
    | true =>
      exfalso
      have hthis := (recordExcept_ok_iff outcomes n 0 []).mp hrec j hj
      rw [Nat.zero_add] at hthis
      rw [hfail] at hthis
      exact Bool.noConfusion hthis

/-- C8 witness: a decode that overruns the 30 s budget fails even with valid
data; gifAddFrame mirrors the decode outcome; and a 2-frame recording whose
first frame's parser reports an error is itself an error. -/
theorem decode_failure_propagates_witness :
    (exceptOk (parsePngBuffer (ParseOutcome.callback 40000 none (some [1, 2, 3]))) = true ↔
      ∃ tMs png, ParseOutcome.callback 40000 none (some [1, 2, 3])
          = ParseOutcome.callback tMs none (some png) ∧ tMs < parseTimeoutMs) ∧
    exceptOk (gifAddFrame (ParseOutcome.callback 40000 none (some [1, 2, 3])) [[0]])
      = exceptOk (parsePngBuffer (ParseOutcome.callback 40000 none (some [1, 2, 3]))) ∧
    exceptOk (recordRun (fun _ => ParseOutcome.callback 0 (some "broken png") none) 2)
      = false :=
  decode_failure_propagates (ParseOutcome.callback 40000 none (some [1, 2, 3])) [[0]]
    (fun _ => ParseOutcome.callback 0 (some "broken png") none) 2 0 (by norm_num) rfl

/-- What the artifact-processing block of Apify.main delivers: which gifs
ended up saved in the key-value store, whether the dataset record was
pushed, and whether the actor run failed. -/
structure GifDelivery where
  origSaved : Bool
  lossySaved : Bool
  loslessSaved : Bool
  pushedData : Bool
  actorFailed : Bool
deriving Repr, DecidableEq

/-- The artifact-processing try-block of Apify.main (main.js lines 199-224):
save the original gif, then (when requested) compress and save the lossy
gif, then (when requested) compress and save the losless gif, then push the
dataset record. `lossyOk` / `loslessOk` say whether compressGif would
succeed for that profile. A compression throw is caught by the catch at
line 219, which logs and rethrows: everything after the throwing statement
is skipped and the actor run fails. Key-value-store writes that already
happened persist. -/
def processGifArtifacts (lossyCompression loslessCompression lossyOk loslessOk : Bool) :
    GifDelivery :=
  if lossyCompression && !lossyOk then
    { origSaved := true, lossySaved := false, loslessSaved := false
      pushedData := false, actorFailed := true }
  else if loslessCompression && !loslessOk then
    { origSaved := true, lossySaved := lossyCompression, loslessSaved := false
      pushedData := false, actorFailed := true }
  else
    { origSaved := true, lossySaved := lossyCompression
      loslessSaved := loslessCompression, pushedData := true, actorFailed := false }

/-- C3 counterexample: with both profiles requested, a lossy compression
failure whose sibling losless compression would succeed still leaves the
losless gif undelivered, skips the dataset push and fails the actor run -
the failure is not isolated to its own profile as the claim states. -/
theorem lossyFailure_skips_losless_cex :
    (processGifArtifacts true true false true).loslessSaved = false ∧
    (processGifArtifacts true true false true).pushedData = false ∧
    (processGifArtifacts true true false true).actorFailed = true := by
  decide

/-- C3 (amended): the original artifact, saved to the key-value store before
any compression runs, always survives; but a lossy-profile compression
failure aborts the shared processing block: whatever the losless flags are,
the losless profile is never attempted or delivered, the dataset push is
skipped, and the rethrown error fails the actor run. -/
theorem gifProcessing_failure_not_isolated (loslessCompression loslessOk : Bool) :
    (processGifArtifacts true loslessCompression false loslessOk).origSaved = true ∧
    (processGifArtifacts true loslessCompression false loslessOk).loslessSaved = false ∧
    (processGifArtifacts true loslessCompression false loslessOk).pushedData = false ∧
    (processGifArtifacts true loslessCompression false loslessOk).actorFailed = true := by
  cases loslessCompression <;> cases loslessOk <;> decide

end GifScroll
